import Mathlib

/-!
Shallow embedding of the `iuliansafta/control-plane` repository core:
the Traefik reverse-proxy tag generator and job-template compiler
(`pkg/nomad/job.go`), and the deployment / status service
(`internal` gRPC service file).

Modelling conventions:
* Go strings are Lean `String`; `fmt.Sprintf` calls become explicit
  concatenations producing the identical text.
* Go `map[string]string` values are association lists
  `List (String × String)`; Go map iteration order is unspecified, the
  list order stands for one admissible iteration order.
* Go pointer-typed optional fields (`*int`, `*string`) are `Option`.
* Machine integers are `Int` (no arithmetic in the embedded code can
  overflow on the inputs the claims quantify over).
* `time.Duration` values are `Int` nanoseconds.
* The Go field `PathPrefix` is embedded under the Lean name `PathPfx`.
-/

/-- `TraefikSpec` from `pkg/nomad/job.go` (the declarative proxy
configuration). `PathPfx` embeds the source field `PathPrefix`. -/
structure TraefikSpec where
  Enable : Bool
  Host : String
  Entrypoint : String
  EnableSSL : Bool
  SSLHost : String
  CertResolver : String
  HealthCheckPath : String
  HealthCheckInterval : String
  PathPfx : String
  Middlewares : List String
  CustomLabels : List (String × String)
deriving Repr, DecidableEq

/-- The text of `fmt.Sprintf("traefik.http.routers.%s.rule=Host(`%s`)", routerName, host)`. -/
def bareRuleTag (routerName host : String) : String :=
  "traefik.http.routers." ++ routerName ++ ".rule=Host(`" ++ host ++ "`)"

/-- The combined host-and-path rule directive: the text of
`fmt.Sprintf("traefik.http.routers.%s.rule=Host(`%s`) && PathPrefix(`%s`)", routerName, host, p)`. -/
def combinedRuleTag (routerName host p : String) : String :=
  "traefik.http.routers." ++ routerName ++ ".rule=Host(`" ++ host ++ "`) && PathPrefix(`" ++ p ++ "`)"

/-- The text of `fmt.Sprintf("traefik.http.routers.%s.entrypoints=%s", routerName, ep)`. -/
def entrypointsTag (routerName ep : String) : String :=
  "traefik.http.routers." ++ routerName ++ ".entrypoints=" ++ ep

/-- The comma join of a middleware list performed in
`GenerateTraefikTags` (`middlewares := ts.Middlewares[0]` followed by the
`+= "," + ts.Middlewares[i]` loop); total, the empty case is unreachable
in the source because both call sites are guarded by `len > 0`. -/
def joinComma : List String → String
  | [] => ""
  | m :: ms => ms.foldl (fun acc s => acc ++ "," ++ s) m

/-- The text of `fmt.Sprintf("traefik.http.routers.%s.middlewares=%s", routerName, middlewares)`. -/
def middlewaresTag (routerName : String) (mws : List String) : String :=
  "traefik.http.routers." ++ routerName ++ ".middlewares=" ++ joinComma mws

/-- The text of `fmt.Sprintf("traefik.http.routers.%s.tls=true", sslRouterName)`. -/
def tlsTag (routerName : String) : String :=
  "traefik.http.routers." ++ routerName ++ ".tls=true"

/-- The text of `fmt.Sprintf("traefik.http.routers.%s.tls.certresolver=%s", sslRouterName, cr)`. -/
def certResolverTag (routerName cr : String) : String :=
  "traefik.http.routers." ++ routerName ++ ".tls.certresolver=" ++ cr

/-- The load-balancer server-port directive
`traefik.http.services.<svc>.loadbalancer.server.port=$\x7bNOMAD_PORT_<label>\x7d`. -/
def serverPortTag (serviceName portLabel : String) : String :=
  "traefik.http.services." ++ serviceName ++ ".loadbalancer.server.port=$\x7bNOMAD_PORT_" ++ portLabel ++ "\x7d"

/-- The `if ts.Host != ""` block of `GenerateTraefikTags`: plain-router
rule, entrypoint (default `web`), optional combined host+path rule,
optional middleware directive, appended in source order. -/
def hostTags (ts : TraefikSpec) (serviceName : String) : List String :=
  if ts.Host = "" then []
  else
    [bareRuleTag serviceName ts.Host,
     entrypointsTag serviceName (if ts.Entrypoint = "" then "web" else ts.Entrypoint)]
    ++ (if ts.PathPfx = "" then [] else [combinedRuleTag serviceName ts.Host ts.PathPfx])
    ++ (if ts.Middlewares = [] then [] else [middlewaresTag serviceName ts.Middlewares])

/-- `sslHost := ts.SSLHost; if sslHost == "" { sslHost = ts.Host }`. -/
def resolvedSSLHost (ts : TraefikSpec) : String :=
  if ts.SSLHost = "" then ts.Host else ts.SSLHost

/-- The `if ts.EnableSSL && ts.Host != ""` block of
`GenerateTraefikTags`: secure-router rule and `websecure` entrypoint,
optional combined host+path rule, TLS directive (cert-resolver-qualified
when a resolver is configured, bare `tls=true` otherwise), optional
middleware directive, appended in source order. -/
def sslTags (ts : TraefikSpec) (serviceName : String) : List String :=
  if ts.EnableSSL = true ∧ ts.Host ≠ "" then
    let sslRouterName := serviceName ++ "-secure"
    [bareRuleTag sslRouterName (resolvedSSLHost ts),
     entrypointsTag sslRouterName "websecure"]
    ++ (if ts.PathPfx = "" then [] else [combinedRuleTag sslRouterName (resolvedSSLHost ts) ts.PathPfx])
    ++ (if ts.CertResolver = "" then [tlsTag sslRouterName]
        else [certResolverTag sslRouterName ts.CertResolver])
    ++ (if ts.Middlewares = [] then [] else [middlewaresTag sslRouterName ts.Middlewares])
  else []

/-- The `if ts.HealthCheckPath != ""` block of `GenerateTraefikTags`:
health-check path directive and interval directive (default `30s`). -/
def healthTags (ts : TraefikSpec) (serviceName : String) : List String :=
  if ts.HealthCheckPath = "" then []
  else
    ["traefik.http.services." ++ serviceName ++ ".loadbalancer.healthcheck.path=" ++ ts.HealthCheckPath,
     "traefik.http.services." ++ serviceName ++ ".loadbalancer.healthcheck.interval=" ++
       (if ts.HealthCheckInterval = "" then "30s" else ts.HealthCheckInterval)]

/-- The trailing `for key, value := range ts.CustomLabels` loop of
`GenerateTraefikTags`: each custom label verbatim as `key=value`. -/
def customTags (ts : TraefikSpec) : List String :=
  ts.CustomLabels.map (fun kv => kv.1 ++ "=" ++ kv.2)

/-- `GenerateTraefikTags` from `pkg/nomad/job.go`: if the proxy is
disabled, the single `deployment` marker; otherwise the base tags, the
host block, the SSL block, the load-balancer server-port directive, the
health-check block and the custom labels, in source append order. -/
def GenerateTraefikTags (ts : TraefikSpec) (serviceName portLabel : String) : List String :=
  if !ts.Enable then ["deployment"]
  else
    ["deployment", "traefik.enable=true"]
    ++ hostTags ts serviceName
    ++ sslTags ts serviceName
    ++ [serverPortTag serviceName portLabel]
    ++ healthTags ts serviceName
    ++ customTags ts

/-- With the proxy enabled, `GenerateTraefikTags` is the concatenation
of its blocks in source append order. -/
theorem tags_decomp (ts : TraefikSpec) (n p : String) (hE : ts.Enable = true) :
    GenerateTraefikTags ts n p =
      ["deployment", "traefik.enable=true"] ++ hostTags ts n ++ sslTags ts n
        ++ [serverPortTag n p] ++ healthTags ts n ++ customTags ts := by
  simp [GenerateTraefikTags, hE]

/-- Anything that is an in-order sublist of the host block is an
in-order sublist of the whole generated tag list. -/
theorem sublist_hostTags_tags {l : List String} (ts : TraefikSpec) (n p : String)
    (hE : ts.Enable = true) (h : List.Sublist l (hostTags ts n)) :
    List.Sublist l (GenerateTraefikTags ts n p) := by
  rw [tags_decomp ts n p hE]
  exact h.trans ((List.sublist_append_right _ _).trans
    ((List.sublist_append_left _ _).trans ((List.sublist_append_left _ _).trans
      ((List.sublist_append_left _ _).trans (List.sublist_append_left _ _)))))

/-- Anything that is an in-order sublist of the SSL block is an
in-order sublist of the whole generated tag list. -/
theorem sublist_sslTags_tags {l : List String} (ts : TraefikSpec) (n p : String)
    (hE : ts.Enable = true) (h : List.Sublist l (sslTags ts n)) :
    List.Sublist l (GenerateTraefikTags ts n p) := by
  rw [tags_decomp ts n p hE]
  exact h.trans ((List.sublist_append_right _ _).trans
    ((List.sublist_append_left _ _).trans ((List.sublist_append_left _ _).trans
      (List.sublist_append_left _ _))))

/-- A fully populated proxy configuration with the proxy disabled,
used to instantiate the disabled-proxy theorem. -/
def tsDisabledFull : TraefikSpec :=
  { Enable := false
    Host := "app.example.com"
    Entrypoint := "web"
    EnableSSL := true
    SSLHost := "ssl.example.com"
    CertResolver := "letsencrypt"
    HealthCheckPath := "/health"
    HealthCheckInterval := "15s"
    PathPfx := "/api"
    Middlewares := ["auth", "compress"]
    CustomLabels := [("team", "core"), ("tier", "web")] }

/-- Claim C5: for every `ProxyConfig` with `enable=false`,
`GenerateTraefikTags` returns exactly one directive (the
plain-deployment marker `deployment`), regardless of how any other
field is populated. -/
theorem generateTraefikTags_disabled (ts : TraefikSpec) (serviceName portLabel : String)
    (h : ts.Enable = false) :
    GenerateTraefikTags ts serviceName portLabel = ["deployment"] := by
  simp [GenerateTraefikTags, h]

/-- Witness for claim C5: the disabled-proxy theorem applied to a
configuration with every other field populated. -/
theorem generateTraefikTags_disabled_witness :
    tsDisabledFull.Enable = false ∧
    GenerateTraefikTags tsDisabledFull "svc" "http" = ["deployment"] :=
  ⟨rfl, generateTraefikTags_disabled tsDisabledFull "svc" "http" rfl⟩

/-- A proxy configuration with host, path prefix and SSL set, used to
instantiate the path-override theorem. -/
def tsC2 : TraefikSpec :=
  { Enable := true
    Host := "web.local"
    Entrypoint := ""
    EnableSSL := true
    SSLHost := ""
    CertResolver := ""
    HealthCheckPath := ""
    HealthCheckInterval := ""
    PathPfx := "/api"
    Middlewares := []
    CustomLabels := [] }

/-- Claim C2: with the proxy enabled, a non-empty host and a non-empty
path prefix, the generated tag list contains the bare `Host(...)` rule
directive and, later in the list, the combined
`Host(...) && PathPrefix(...)` rule directive under the same router
key, for the plain router; and, when SSL is emitted (`enableSSL=true`),
likewise for the secure router. -/
theorem generateTraefikTags_pathOverride (ts : TraefikSpec) (n p : String)
    (hE : ts.Enable = true) (hH : ts.Host ≠ "") (hP : ts.PathPfx ≠ "") :
    List.Sublist [bareRuleTag n ts.Host, combinedRuleTag n ts.Host ts.PathPfx]
      (GenerateTraefikTags ts n p) ∧
    (ts.EnableSSL = true →
      List.Sublist [bareRuleTag (n ++ "-secure") (resolvedSSLHost ts),
          combinedRuleTag (n ++ "-secure") (resolvedSSLHost ts) ts.PathPfx]
        (GenerateTraefikTags ts n p)) := by
  constructor
  · apply sublist_hostTags_tags ts n p hE
    simp only [hostTags, if_neg hH, if_neg hP]
    exact .cons₂ _ (.cons _ (.cons₂ _ (List.nil_sublist _)))
  · intro hS
    apply sublist_sslTags_tags ts n p hE
    simp only [sslTags, if_pos (And.intro hS hH), if_neg hP]
    exact .cons₂ _ (.cons _ (.cons₂ _ (List.nil_sublist _)))

/-- Witness for claim C2: the path-override theorem applied to a
concrete enabled configuration with host `web.local`, prefix `/api`
and SSL on. -/
theorem generateTraefikTags_pathOverride_witness :
    List.Sublist [bareRuleTag "svc" "web.local", combinedRuleTag "svc" "web.local" "/api"]
      (GenerateTraefikTags tsC2 "svc" "http") ∧
    List.Sublist [bareRuleTag "svc-secure" "web.local", combinedRuleTag "svc-secure" "web.local" "/api"]
      (GenerateTraefikTags tsC2 "svc" "http") := by
  have h := generateTraefikTags_pathOverride tsC2 "svc" "http" rfl (by decide) (by decide)
  exact ⟨h.1, h.2 rfl⟩

/-- A proxy configuration with host, SSL, a cert resolver and
middlewares set, used to instantiate the SSL-iff theorem. -/
def tsC3 : TraefikSpec :=
  { Enable := true
    Host := "web.local"
    Entrypoint := "web"
    EnableSSL := true
    SSLHost := "ssl.local"
    CertResolver := "letsencrypt"
    HealthCheckPath := "/"
    HealthCheckInterval := "30s"
    PathPfx := ""
    Middlewares := ["auth"]
    CustomLabels := [] }

/-- Claim C3: with the proxy enabled, the generated tag list decomposes
into its blocks with the SSL block in a fixed position; the SSL block
is non-empty exactly when the host is non-empty and `enableSSL` is set
(so `enableSSL=true` with an empty host yields no SSL-related directive
at all, silently); and when it is emitted it carries the secure-router
rule, the `websecure` entrypoint, the TLS directive and, when
middlewares are configured, the secure-router middleware directive. -/
theorem generateTraefikTags_ssl_iff (ts : TraefikSpec) (n p : String)
    (hE : ts.Enable = true) :
    GenerateTraefikTags ts n p =
      ["deployment", "traefik.enable=true"] ++ hostTags ts n ++ sslTags ts n
        ++ [serverPortTag n p] ++ healthTags ts n ++ customTags ts ∧
    (sslTags ts n ≠ [] ↔ (ts.Host ≠ "" ∧ ts.EnableSSL = true)) ∧
    (ts.Host ≠ "" → ts.EnableSSL = true →
      bareRuleTag (n ++ "-secure") (resolvedSSLHost ts) ∈ sslTags ts n ∧
      entrypointsTag (n ++ "-secure") "websecure" ∈ sslTags ts n ∧
      (if ts.CertResolver = "" then tlsTag (n ++ "-secure")
        else certResolverTag (n ++ "-secure") ts.CertResolver) ∈ sslTags ts n ∧
      (ts.Middlewares ≠ [] → middlewaresTag (n ++ "-secure") ts.Middlewares ∈ sslTags ts n)) := by
  refine ⟨tags_decomp ts n p hE, ?_, ?_⟩
  · rcases Classical.em (ts.EnableSSL = true ∧ ts.Host ≠ "") with hC | hC
    · simp only [sslTags, if_pos hC]
      simp [hC.1, hC.2]
    · simp only [sslTags, if_neg hC]
      simp only [ne_eq, not_true_eq_false, false_iff]
      exact fun h => hC ⟨h.2, h.1⟩
  · intro hH hS
    simp only [sslTags, if_pos (And.intro hS hH)]
    refine ⟨by simp, by simp, ?_, ?_⟩
    · rcases Classical.em (ts.CertResolver = "") with h | h <;> simp [h]
    · intro hM
      simp [hM]

/-- Witness for claim C3: the SSL-iff theorem applied to a concrete
enabled configuration with host, SSL, cert resolver and middlewares. -/
theorem generateTraefikTags_ssl_iff_witness :
    GenerateTraefikTags tsC3 "svc" "http" =
      ["deployment", "traefik.enable=true"] ++ hostTags tsC3 "svc" ++ sslTags tsC3 "svc"
        ++ [serverPortTag "svc" "http"] ++ healthTags tsC3 "svc" ++ customTags tsC3 ∧
    (sslTags tsC3 "svc" ≠ [] ↔ (tsC3.Host ≠ "" ∧ tsC3.EnableSSL = true)) ∧
    (tsC3.Host ≠ "" → tsC3.EnableSSL = true →
      bareRuleTag ("svc" ++ "-secure") (resolvedSSLHost tsC3) ∈ sslTags tsC3 "svc" ∧
      entrypointsTag ("svc" ++ "-secure") "websecure" ∈ sslTags tsC3 "svc" ∧
      (if tsC3.CertResolver = "" then tlsTag ("svc" ++ "-secure")
        else certResolverTag ("svc" ++ "-secure") tsC3.CertResolver) ∈ sslTags tsC3 "svc" ∧
      (tsC3.Middlewares ≠ [] → middlewaresTag ("svc" ++ "-secure") tsC3.Middlewares ∈ sslTags tsC3 "svc")) :=
  generateTraefikTags_ssl_iff tsC3 "svc" "http" rfl

/-- Input `ServiceCheck` from `pkg/nomad/job.go` (the template's
health-check request). `CheckType` embeds the source field `Type`;
`Interval` and `Duration` are `time.Duration` nanoseconds. -/
structure ServiceCheck where
  CheckType : String
  Path : String
  Interval : Int
  Duration : Int
  Timeout : String
  Port : String
deriving Repr, DecidableEq

/-- `Resources` from `pkg/nomad/job.go`; each `*int` field is an `Option`. -/
structure Resources where
  CPU : Option Int
  Cores : Option Int
  MemoryMB : Option Int
  MemoryMaxMB : Option Int
deriving Repr, DecidableEq

/-- `Ports` from `pkg/nomad/job.go`. -/
structure Ports where
  Label : String
  Value : Int
  To : Int
deriving Repr, DecidableEq

/-- `JobTemplate` from `pkg/nomad/job.go`. `Environment` (a Go map) is
an association list. -/
structure JobTemplate where
  Name : String
  Image : String
  Instances : Int
  Region : String
  Ports : Ports
  Environment : List (String × String)
  ResourcesSpec : Resources
  HealthCheck : ServiceCheck
  Traefik : TraefikSpec
  DisableConsul : Bool
  NetworkMode : String
deriving Repr, DecidableEq

/-- `nomad/api.Port`: Go zero values model the unset fields (`Value = 0`
when only the container-side port is set, `To = 0` when only the
host-side value is set). -/
structure NmdPort where
  Label : String
  Value : Int
  To : Int
deriving Repr, DecidableEq

/-- `nomad/api.NetworkResource`, restricted to the fields the source sets. -/
structure NmdNetworkResource where
  Mode : String
  DynamicPorts : List NmdPort
deriving Repr, DecidableEq

/-- `nomad/api.ServiceCheck`, restricted to the fields the source sets.
`CheckType` embeds the source field `Type`; durations are nanoseconds. -/
structure NmdServiceCheck where
  CheckType : String
  Path : String
  Interval : Int
  Timeout : Int
  PortLabel : String
deriving Repr, DecidableEq

/-- `nomad/api.Service`, restricted to the fields the source sets. -/
structure NmdService where
  Name : String
  PortLabel : String
  Tags : List String
  Checks : List NmdServiceCheck
deriving Repr, DecidableEq

/-- `nomad/api.Resources`, restricted to the fields the source sets. -/
structure NmdResources where
  CPU : Option Int
  Cores : Option Int
  MemoryMB : Option Int
  MemoryMaxMB : Option Int
deriving Repr, DecidableEq

/-- `nomad/api.Task`, restricted to the fields the source sets. The
driver config map `{"image": jt.Image}` is an association list. -/
structure NmdTask where
  Name : String
  Driver : String
  Config : List (String × String)
  Resources : NmdResources
  Env : List (String × String)
deriving Repr, DecidableEq

/-- `nomad/api.TaskGroup`, restricted to the fields the source sets and
reads. `Count` embeds the `*int` count the source always populates on
construction and dereferences on read. -/
structure NmdTaskGroup where
  Name : Option String
  Count : Int
  Tasks : List NmdTask
  Networks : List NmdNetworkResource
  Services : List NmdService
deriving Repr, DecidableEq

/-- `nomad/api.Job`, restricted to the fields the source sets and reads.
`JobType` embeds the source field `Type`. -/
structure NmdJob where
  ID : Option String
  Name : Option String
  JobType : Option String
  Status : Option String
  Datacenters : List String
  Region : Option String
  TaskGroups : List NmdTaskGroup
deriving Repr, DecidableEq

/-- `networkMode := jt.NetworkMode; if networkMode == "" { networkMode = "host" }`
inside `buildTaskGroup`. -/
def resolvedNetworkMode (jt : JobTemplate) : String :=
  if jt.NetworkMode = "" then "host" else jt.NetworkMode

/-- `buildTaskGroup` from `pkg/nomad/job.go`. `parseDuration` stands for
the Go standard-library `time.ParseDuration` (external to this
repository): `some d` is a successful parse yielding `d` nanoseconds,
`none` a parse error, which Go returns both for malformed strings and
for the empty (absent) string. The Go code starts from the empty
`nmd.Resources` and copies each field only when the corresponding input
pointer is non-nil; the net effect is the fieldwise copy below. -/
def buildTaskGroup (parseDuration : String → Option Int) (jt : JobTemplate) : List NmdTaskGroup :=
  let resources : NmdResources :=
    { CPU := jt.ResourcesSpec.CPU
      Cores := jt.ResourcesSpec.Cores
      MemoryMB := jt.ResourcesSpec.MemoryMB
      MemoryMaxMB := jt.ResourcesSpec.MemoryMaxMB }
  let networks : List NmdNetworkResource :=
    if jt.Ports.Label = "" then []
    else
      let networkMode := resolvedNetworkMode jt
      let dynamicPorts : List NmdPort :=
        if networkMode = "bridge" then
          [{ Label := jt.Ports.Label, Value := 0, To := jt.Ports.To }]
        else
          [{ Label := jt.Ports.Label, Value := jt.Ports.Value, To := 0 }]
      [{ Mode := networkMode, DynamicPorts := dynamicPorts }]
  let task : NmdTask :=
    { Name := jt.Name
      Driver := "containerd-driver"
      Config := [("image", jt.Image)]
      Resources := resources
      Env := jt.Environment }
  let services : List NmdService :=
    if jt.Ports.Label ≠ "" ∧ jt.DisableConsul = false then
      let traefikTags := GenerateTraefikTags jt.Traefik jt.Name jt.Ports.Label
      let service0 : NmdService :=
        { Name := jt.Name ++ "-" ++ jt.Ports.Label
          PortLabel := jt.Ports.Label
          Tags := traefikTags
          Checks := [] }
      let service :=
        if jt.HealthCheck.CheckType ≠ "" then
          let timeout : Int :=
            match parseDuration jt.HealthCheck.Timeout with
            | some d => d
            | none => 10000000000
          let check : NmdServiceCheck :=
            { CheckType := jt.HealthCheck.CheckType
              Path := jt.HealthCheck.Path
              Interval := jt.HealthCheck.Interval
              Timeout := timeout
              PortLabel := if jt.HealthCheck.Port ≠ "" then jt.HealthCheck.Port else jt.Ports.Label }
          { service0 with Checks := [check] }
        else service0
      [service]
    else []
  let taskGroup : NmdTaskGroup :=
    { Name := some (jt.Name ++ "-group")
      Count := jt.Instances
      Tasks := [task]
      Networks := networks
      Services := services }
  [taskGroup]

/-- `ToNomadJob` from `pkg/nomad/job.go`. -/
def ToNomadJob (parseDuration : String → Option Int) (jt : JobTemplate) : NmdJob :=
  let job : NmdJob :=
    { ID := some jt.Name
      Name := some jt.Name
      JobType := some "service"
      Status := none
      Datacenters := ["dc1"]
      Region := none
      TaskGroups := buildTaskGroup parseDuration jt }
  if jt.Region ≠ "" then { job with Region := some jt.Region } else job

/-- A duration parser that fails on every input, standing for
`time.ParseDuration` on malformed/absent strings. -/
def pdNone : String → Option Int := fun _ => none

/-- A concrete bridge-mode job template with a health check whose
timeout string is malformed. -/
def jtBridge : JobTemplate :=
  { Name := "web"
    Image := "nginx:latest"
    Instances := 2
    Region := "global"
    Ports := { Label := "http", Value := 0, To := 80 }
    Environment := []
    ResourcesSpec := { CPU := some 5, Cores := none, MemoryMB := some 512, MemoryMaxMB := none }
    HealthCheck := { CheckType := "http", Path := "/health", Interval := 10000000000,
                     Duration := 0, Timeout := "bogus", Port := "" }
    Traefik := { Enable := false, Host := "", Entrypoint := "", EnableSSL := false,
                 SSLHost := "", CertResolver := "", HealthCheckPath := "",
                 HealthCheckInterval := "", PathPfx := "", Middlewares := [], CustomLabels := [] }
    DisableConsul := false
    NetworkMode := "bridge" }

/-- Claim C4: with a non-empty port label, the compiled network block
holds a single network with a single port; under resolved mode `bridge`
the port carries the container-side `To` and no host-side `Value`
(`Value = 0`), otherwise the host-side `Value` and no container-side
`To` (`To = 0`); `bridge` resolves from exactly the `bridge` input and
both `host` and the empty input resolve to `host`. -/
theorem buildTaskGroup_network (pd : String → Option Int) (jt : JobTemplate)
    (hL : jt.Ports.Label ≠ "") :
    (buildTaskGroup pd jt).map NmdTaskGroup.Networks =
      [[{ Mode := resolvedNetworkMode jt,
          DynamicPorts :=
            [if resolvedNetworkMode jt = "bridge" then
                { Label := jt.Ports.Label, Value := 0, To := jt.Ports.To }
              else
                { Label := jt.Ports.Label, Value := jt.Ports.Value, To := 0 }] }]] ∧
    (jt.NetworkMode = "bridge" → resolvedNetworkMode jt = "bridge") ∧
    (jt.NetworkMode = "host" ∨ jt.NetworkMode = "" → resolvedNetworkMode jt = "host") := by
  refine ⟨?_, ?_, ?_⟩
  · rcases Classical.em (resolvedNetworkMode jt = "bridge") with h | h <;>
      simp [buildTaskGroup, hL, h]
  · intro h
    simp [resolvedNetworkMode, h]
  · rintro (h | h) <;> simp [resolvedNetworkMode, h]

/-- Witness for claim C4: the network-shape theorem applied to the
concrete bridge-mode template. -/
theorem buildTaskGroup_network_witness :
    jtBridge.Ports.Label ≠ "" ∧
    ((buildTaskGroup pdNone jtBridge).map NmdTaskGroup.Networks =
      [[{ Mode := resolvedNetworkMode jtBridge,
          DynamicPorts :=
            [if resolvedNetworkMode jtBridge = "bridge" then
                { Label := jtBridge.Ports.Label, Value := 0, To := jtBridge.Ports.To }
              else
                { Label := jtBridge.Ports.Label, Value := jtBridge.Ports.Value, To := 0 }] }]] ∧
    (jtBridge.NetworkMode = "bridge" → resolvedNetworkMode jtBridge = "bridge") ∧
    (jtBridge.NetworkMode = "host" ∨ jtBridge.NetworkMode = "" → resolvedNetworkMode jtBridge = "host")) :=
  ⟨by decide, buildTaskGroup_network pdNone jtBridge (by decide)⟩

/-- Claim C9: compilation is total by construction (`buildTaskGroup` is
a total function), and when a health-check type is configured and the
timeout string fails to parse (malformed or absent), the single
compiled service check carries a 10-second (10000000000 ns) timeout. -/
theorem buildTaskGroup_timeout_default (pd : String → Option Int) (jt : JobTemplate)
    (hL : jt.Ports.Label ≠ "") (hC : jt.DisableConsul = false)
    (hT : jt.HealthCheck.CheckType ≠ "") (hP : pd jt.HealthCheck.Timeout = none) :
    (buildTaskGroup pd jt).map
        (fun tg => tg.Services.map (fun s => s.Checks.map NmdServiceCheck.Timeout)) =
      [[[10000000000]]] := by
  simp [buildTaskGroup, hL, hC, hT, hP]

/-- Witness for claim C9: the timeout-default theorem applied to the
concrete template whose timeout string `bogus` fails to parse. -/
theorem buildTaskGroup_timeout_default_witness :
    jtBridge.Ports.Label ≠ "" ∧ jtBridge.DisableConsul = false ∧
    jtBridge.HealthCheck.CheckType ≠ "" ∧ pdNone jtBridge.HealthCheck.Timeout = none ∧
    (buildTaskGroup pdNone jtBridge).map
        (fun tg => tg.Services.map (fun s => s.Checks.map NmdServiceCheck.Timeout)) =
      [[[10000000000]]] :=
  ⟨by decide, rfl, by decide, rfl,
    buildTaskGroup_timeout_default pdNone jtBridge (by decide) rfl (by decide) rfl⟩

/-- Claim C10: the compiled job's datacenter list is always exactly
`["dc1"]`, independent of the `Region` input; the `Region` input only
populates the job's region field, and only when non-empty. -/
theorem toNomadJob_datacenters_region (pd : String → Option Int) (jt : JobTemplate) :
    (ToNomadJob pd jt).Datacenters = ["dc1"] ∧
    (ToNomadJob pd jt).Region = (if jt.Region = "" then none else some jt.Region) := by
  rcases Classical.em (jt.Region = "") with h | h <;> simp [ToNomadJob, h]

/-- The protobuf `NetworkMode` enum of the deploy request. -/
inductive PbNetworkMode where
  | UNSPECIFIED
  | HOST
  | BRIDGE
deriving Repr, DecidableEq

/-- The protobuf `TraefikConfig` message carried by a deploy request.
`PathPfx` embeds the source field `PathPrefix`. -/
structure PbTraefikConfig where
  Enable : Bool
  Host : String
  Entrypoint : String
  EnableSsl : Bool
  SslHost : String
  CertResolver : String
  HealthCheckPath : String
  HealthCheckInterval : String
  PathPfx : String
  Middlewares : List String
  CustomLabels : List (String × String)
deriving Repr, DecidableEq

/-- The protobuf `DeployRequest`. `Cpu` is a protobuf `double`
(fractional cores); it is modelled as an exact rational, so the float64
product `req.Cpu * 10` below is exact rational multiplication (exact
for every float-representable input whose product is representable,
in particular for the concrete inputs used here). -/
structure DeployRequest where
  Name : String
  Image : String
  Replicas : Int
  Cpu : ℚ
  Memory : Int
  Region : String
  NetworkMode : PbNetworkMode
  Labels : List (String × String)
  Traefik : Option PbTraefikConfig

/-- The protobuf `DeployResponse`. -/
structure DeployResponse where
  DeploymentId : String
  Status : String
  Message : String
deriving Repr, DecidableEq

/-- `nomad/api.JobRegisterResponse`, restricted to the field the source reads. -/
structure NmdJobRegisterResponse where
  EvalID : String
deriving Repr, DecidableEq

/-- Go's conversion `int(x)` of a floating-point value: truncation
toward zero. -/
def goIntOfFloat (q : ℚ) : Int :=
  if 0 ≤ q then ⌊q⌋ else ⌈q⌉

/-- The `switch req.NetworkMode` at the top of `DeployApplication`:
`BRIDGE` maps to `"bridge"`, `HOST` and every other value (the
`default` branch, covering `UNSPECIFIED`) to `"host"`. -/
def deployNetworkMode (m : PbNetworkMode) : String :=
  match m with
  | .BRIDGE => "bridge"
  | .HOST => "host"
  | .UNSPECIFIED => "host"

/-- The `jobTemplate` constructed by `DeployApplication` (current
revision of the service file): CPU is `utils.IntPtr(int(req.Cpu * 10))`,
memory is passed through, the Traefik spec is copied fieldwise when the
request carries one (its absence leaves the Go zero value), the
environment is `maps.Copy` of the request labels into an empty map, and
the zero-valued port descriptor is defaulted to label `http`, dynamic
host port `0`, container port `80`. -/
def deployJobTemplate (req : DeployRequest) : JobTemplate :=
  let jobTemplate : JobTemplate :=
    { Name := req.Name
      Image := req.Image
      Instances := req.Replicas
      Region := req.Region
      DisableConsul := false
      NetworkMode := deployNetworkMode req.NetworkMode
      Ports := { Label := "", Value := 0, To := 0 }
      Environment := req.Labels
      ResourcesSpec :=
        { CPU := some (goIntOfFloat (req.Cpu * 10))
          Cores := none
          MemoryMB := some req.Memory
          MemoryMaxMB := none }
      HealthCheck :=
        { CheckType := "", Path := "", Interval := 0, Duration := 0, Timeout := "", Port := "" }
      Traefik :=
        match req.Traefik with
        | some t =>
          { Enable := t.Enable
            Host := t.Host
            Entrypoint := t.Entrypoint
            EnableSSL := t.EnableSsl
            SSLHost := t.SslHost
            CertResolver := t.CertResolver
            HealthCheckPath := t.HealthCheckPath
            HealthCheckInterval := t.HealthCheckInterval
            PathPfx := t.PathPfx
            Middlewares := t.Middlewares
            CustomLabels := t.CustomLabels }
        | none =>
          { Enable := false, Host := "", Entrypoint := "", EnableSSL := false, SSLHost := "",
            CertResolver := "", HealthCheckPath := "", HealthCheckInterval := "",
            PathPfx := "", Middlewares := [], CustomLabels := [] } }
  if jobTemplate.Ports.Label = "" then
    { jobTemplate with Ports := { Label := "http", Value := 0, To := 80 } }
  else jobTemplate

/-- `DeployApplication` from the service file. The orchestrator call
`s.orhClient.DeployJob` is the `deployJob` parameter; `.error e` is a
failed submission with error text `e`. The second component of the
result is the Go `error` return value of the handler, always `nil`
(`none`). -/
def deployApplication (req : DeployRequest)
    (deployJob : JobTemplate → Except String NmdJobRegisterResponse) :
    DeployResponse × Option String :=
  let jobTemplate := deployJobTemplate req
  match deployJob jobTemplate with
  | .error err =>
    ({ DeploymentId := "", Status := "FAILED",
       Message := "Failed to deploy application: " ++ err }, none)
  | .ok resp =>
    ({ DeploymentId := resp.EvalID, Status := "SUBMITTED",
       Message := "Application deployment submitted successfully" }, none)

/-- A concrete deploy request with `cpu = 0.375` cores (a value, and
whose product by 10 is, exactly representable as a float64, so the
rational model coincides with the Go float arithmetic). -/
def reqC1 : DeployRequest :=
  { Name := "web"
    Image := "nginx:latest"
    Replicas := 1
    Cpu := 3 / 8
    Memory := 512
    Region := ""
    NetworkMode := .HOST
    Labels := []
    Traefik := none }

/-- Counterexample to claim C1 as stated: at `cpu = 0.375 > 0` the CPU
value placed in the job's resource spec is `int(0.375 * 10) = 3`
(Go truncation), not `round(0.375 * 10) = 4`. -/
theorem deployCpu_not_round :
    0 < reqC1.Cpu ∧
    (deployJobTemplate reqC1).ResourcesSpec.CPU ≠ some (round (reqC1.Cpu * 10)) := by
  have hcpu : reqC1.Cpu = 3 / 8 := rfl
  have h1 : (deployJobTemplate reqC1).ResourcesSpec.CPU = some 3 := by
    norm_num [deployJobTemplate, reqC1, goIntOfFloat]
  have h2 : round ((3 : ℚ) / 8 * 10) = 4 := by
    norm_num [round_eq]
  refine ⟨by norm_num [reqC1], ?_⟩
  rw [h1, hcpu, h2]
  decide

/-- Claim C1 (amended): for every deploy request with `cpu` cores
`c > 0`, the CPU value placed in the job's resource spec equals the
truncation toward zero of `c × 10` (which for `c > 0` is `⌊c × 10⌋`) —
the pinned multiplier is the ×10 of the current revision, but the
conversion truncates the fractional product, it does not round to the
nearest integer. -/
theorem deployCpu_trunc (req : DeployRequest) (h : 0 < req.Cpu) :
    (deployJobTemplate req).ResourcesSpec.CPU = some ⌊req.Cpu * 10⌋ := by
  have h10 : (0 : ℚ) ≤ req.Cpu * 10 := by positivity
  simp [deployJobTemplate, goIntOfFloat, h10]

/-- Witness for the amended claim C1, at `cpu = 0.375`:
`⌊0.375 × 10⌋ = 3`. -/
theorem deployCpu_trunc_witness :
    0 < reqC1.Cpu ∧ (deployJobTemplate reqC1).ResourcesSpec.CPU = some ⌊reqC1.Cpu * 10⌋ :=
  ⟨by norm_num [reqC1], deployCpu_trunc reqC1 (by norm_num [reqC1])⟩

/-- Claim C7: the deploy handler never returns a transport-level error
(the Go `error` result is always `nil`); on orchestrator failure it
returns status `FAILED` with the underlying error embedded in the
message, on success status `SUBMITTED` with the deployment id equal to
the orchestrator evaluation identifier. -/
theorem deployApplication_outcome (req : DeployRequest)
    (deployJob : JobTemplate → Except String NmdJobRegisterResponse) :
    (deployApplication req deployJob).2 = none ∧
    (deployApplication req deployJob).1 =
      (match deployJob (deployJobTemplate req) with
       | .error err =>
         { DeploymentId := "", Status := "FAILED",
           Message := "Failed to deploy application: " ++ err }
       | .ok resp =>
         { DeploymentId := resp.EvalID, Status := "SUBMITTED",
           Message := "Application deployment submitted successfully" }) := by
  rcases h : deployJob (deployJobTemplate req) with err | resp <;>
    simp [deployApplication, h]

/-- `nomad/api.AllocationListStub`, restricted to the fields the source
reads. `TaskStates` (a Go map `taskName -> *TaskState`) is an
association list whose values are the `State` strings; a Go `nil` map
is the empty list, so the source's `if alloc.TaskStates != nil` guard
followed by the copy loop is the plain fieldwise copy below. -/
structure AllocListStub where
  ID : String
  NodeID : String
  NodeName : String
  ClientStatus : String
  DesiredStatus : String
  CreateTime : Int
  ModifyTime : Int
  TaskStates : List (String × String)
deriving Repr, DecidableEq

/-- The protobuf `AllocationStatus`. -/
structure AllocationStatus where
  AllocationId : String
  NodeId : String
  NodeName : String
  Status : String
  DesiredStatus : String
  CreateTime : Int
  ModifyTime : Int
  TaskStates : List (String × String)
deriving Repr, DecidableEq

/-- The protobuf `StatusResponse`. -/
structure StatusResponse where
  DeploymentId : String
  JobStatus : String
  JobType : String
  DesiredInstances : Int
  RunningInstances : Int
  Allocations : List AllocationStatus
  Message : String
deriving Repr, DecidableEq

/-- `GetApplicationStatus` from the service file. The orchestrator call
`s.orhClient.GetJobStatus` is the `getJobStatus` argument (its result on
the requested id). The allocation loop is embedded as the fold that
counts `"running"` client statuses and the map that builds the summary
list; the `len(job.TaskGroups) > 0` guard is the match on
`job.TaskGroups`. The source dereferences `*job.Status` and `*job.Type`
unconditionally (non-nil on well-formed orchestrator responses);
`Option.getD ""` stands for those dereferences. The second component is
the handler's Go `error` return value, always `nil` (`none`). -/
def getApplicationStatus (deploymentId : String)
    (getJobStatus : Except String (NmdJob × List AllocListStub)) :
    StatusResponse × Option String :=
  match getJobStatus with
  | .error err =>
    ({ DeploymentId := deploymentId, JobStatus := "", JobType := "",
       DesiredInstances := 0, RunningInstances := 0, Allocations := [],
       Message := "Failed to get application status: " ++ err }, none)
  | .ok (job, allocations) =>
    let runningInstances : Int :=
      allocations.foldl (fun n alloc => if alloc.ClientStatus = "running" then n + 1 else n) 0
    let allocationStatuses : List AllocationStatus :=
      allocations.map (fun alloc =>
        { AllocationId := alloc.ID
          NodeId := alloc.NodeID
          NodeName := alloc.NodeName
          Status := alloc.ClientStatus
          DesiredStatus := alloc.DesiredStatus
          CreateTime := alloc.CreateTime
          ModifyTime := alloc.ModifyTime
          TaskStates := alloc.TaskStates })
    let desiredInstances : Int :=
      match job.TaskGroups with
      | [] => 0
      | g :: _ => g.Count
    ({ DeploymentId := deploymentId
       JobStatus := job.Status.getD ""
       JobType := job.JobType.getD ""
       DesiredInstances := desiredInstances
       RunningInstances := runningInstances
       Allocations := allocationStatuses
       Message := "Application status retrieved successfully" }, none)

/-- The running-status counting loop, generalised over the accumulator:
it adds the number of allocations whose client status is exactly
`"running"`. -/
theorem foldl_count_running (l : List AllocListStub) (n : Int) :
    l.foldl (fun m alloc => if alloc.ClientStatus = "running" then m + 1 else m) n =
      n + ((l.filter (fun alloc => alloc.ClientStatus = "running")).length : Int) := by
  induction l generalizing n with
  | nil => simp
  | cons a l ih =>
    rcases Classical.em (a.ClientStatus = "running") with h | h
    · simp [List.filter_cons, h, ih]
      omega
    · simp [List.filter_cons, h, ih]

/-- Claim C8: for every status request whose orchestrator lookup
succeeds, `runningInstances` equals the exact number of allocations in
the returned list whose client status string equals `"running"`
(case-sensitive string equality, no normalization). -/
theorem getApplicationStatus_running (deploymentId : String) (job : NmdJob)
    (allocs : List AllocListStub) :
    (getApplicationStatus deploymentId (.ok (job, allocs))).1.RunningInstances =
      ((allocs.filter (fun alloc => alloc.ClientStatus = "running")).length : Int) := by
  simpa using foldl_count_running allocs 0

/-- Claim C6: for every status request whose orchestrator lookup
succeeds, `desiredInstances` is `0` when the job has zero task groups
and is the first task group's count otherwise; the aggregation is a
total function, so no out-of-range indexing can occur. -/
theorem getApplicationStatus_desired (deploymentId : String) (job : NmdJob)
    (allocs : List AllocListStub) :
    (getApplicationStatus deploymentId (.ok (job, allocs))).1.DesiredInstances =
      (match job.TaskGroups with
       | [] => 0
       | g :: _ => g.Count) := by
  rcases h : job.TaskGroups with _ | ⟨g, rest⟩ <;> simp [getApplicationStatus, h]
